import Mathlib

/-!
Verification of the LLM provider layer of AICodeReviewCLI.

The development shallowly embeds `src/codereview_tool/llm_integration.py`
(the provider capability interface, the three vendor adapters and the
provider factory) together with the two fragments of
`src/codereview_tool/cli.py` that the checked properties mention (the
model-ordering block of `setup_configuration` and the review-generation
call sites of `main`).

Python strings are modelled as Lean `String`; the Python builtins used by
the source (`sorted`, the `in` substring test, `str.replace`) are given
executable structural definitions below.  Vendor SDK calls are modelled as
explicit oracle functions returning `Except String α`, where an `error e`
outcome stands for the SDK raising an exception whose printed detail is
`e`.  Python exceptions raised by the embedded code itself are the
inductive `PyErr`; a fallible Python call is a Lean function into
`Except PyErr α`.
-/

namespace AICodeReview

/-! ### Python string primitives -/

/-- Boolean lexicographic (code-point) comparison of character lists.
This is the order the Python builtin `sorted` uses on strings. -/
def charListLe : List Char → List Char → Bool
  | [], _ => true
  | _ :: _, [] => false
  | a :: as, b :: bs => if a = b then charListLe as bs else decide (a < b)

/-- Python string less-or-equal, via the underlying character lists. -/
def pyStrLe (a b : String) : Bool :=
  charListLe a.toList b.toList

/-- Propositional form of `pyStrLe`, used to state sortedness. -/
def pyLe (a b : String) : Prop :=
  pyStrLe a b = true

instance : DecidableRel pyLe :=
  fun a b => inferInstanceAs (Decidable (pyStrLe a b = true))

theorem charListLe_total : ∀ a b : List Char, charListLe a b = true ∨ charListLe b a = true := by
  intro a
  induction a with
  | nil => intro b; exact Or.inl rfl
  | cons x as ih =>
      intro b
      cases b with
      | nil => exact Or.inr rfl
      | cons y bs =>
          by_cases hxy : x = y
          · subst hxy
            simpa [charListLe] using ih bs
          · rcases lt_or_gt_of_ne hxy with h | h
            · exact Or.inl (by simp [charListLe, hxy, h])
            · exact Or.inr (by simp [charListLe, Ne.symm hxy, h])

theorem charListLe_trans :
    ∀ a b c : List Char, charListLe a b = true → charListLe b c = true →
      charListLe a c = true := by
  intro a
  induction a with
  | nil => intro b c _ _; rfl
  | cons x as ih =>
      intro b c hab hbc
      cases b with
      | nil => simp [charListLe] at hab
      | cons y bs =>
          cases c with
          | nil => simp [charListLe] at hbc
          | cons z cs =>
              by_cases hxy : x = y
              · subst hxy
                by_cases hxz : x = z
                · subst hxz
                  simp only [charListLe, if_pos rfl] at hab hbc ⊢
                  exact ih bs cs hab hbc
                · simp only [charListLe, if_neg hxz] at hbc ⊢
                  exact hbc
              · simp only [charListLe, if_neg hxy] at hab
                rw [decide_eq_true_eq] at hab
                by_cases hyz : y = z
                · subst hyz
                  simp only [charListLe, if_neg hxy]
                  exact decide_eq_true hab
                · simp only [charListLe, if_neg hyz] at hbc
                  rw [decide_eq_true_eq] at hbc
                  have hxz : x < z := lt_trans hab hbc
                  simp only [charListLe, if_neg (ne_of_lt hxz)]
                  exact decide_eq_true hxz

instance : IsTotal String pyLe :=
  ⟨fun a b => charListLe_total a.toList b.toList⟩

instance : IsTrans String pyLe :=
  ⟨fun a b c hab hbc => charListLe_trans a.toList b.toList c.toList hab hbc⟩

/-- Models the Python builtin `sorted` on lists of strings: a stable sort
by code-point lexicographic order. -/
def pySorted (l : List String) : List String :=
  List.insertionSort pyLe l

theorem pySorted_sorted (l : List String) : List.Sorted pyLe (pySorted l) :=
  List.sorted_insertionSort pyLe l

theorem mem_pySorted {l : List String} {x : String} : x ∈ pySorted l ↔ x ∈ l :=
  List.mem_insertionSort pyLe

/-- Models the Python substring test `needle in hay`. -/
def strContains (hay needle : String) : Bool :=
  hay.toList.tails.any (fun suf => needle.toList.isPrefixOf suf)

/-- Fuel-driven worker for `pyReplace`; each step consumes at least one
character of the subject list, so fuel equal to its length suffices. -/
def replaceAllAux (needle repl : List Char) : Nat → List Char → List Char
  | 0, s => s
  | _ + 1, [] => []
  | fuel + 1, c :: cs =>
      if needle.isPrefixOf (c :: cs) ∧ needle ≠ [] then
        repl ++ replaceAllAux needle repl fuel (List.drop (needle.length - 1) cs)
      else
        c :: replaceAllAux needle repl fuel cs

/-- Models Python `s.replace(needle, repl)` for a non-empty `needle`:
replace every non-overlapping occurrence, scanning left to right. -/
def pyReplace (s needle repl : String) : String :=
  ⟨replaceAllAux needle.toList repl.toList s.toList.length s.toList⟩

/-! ### Exceptions and truthiness -/

/-- The Python exception values raised by the embedded code itself.
`raw e` is an arbitrary underlying SDK exception, propagated unchanged,
identified by its printed detail `e`. -/
inductive PyErr where
  | valueError (msg : String)
  | connectionError (msg : String)
  | raw (msg : String)
  deriving DecidableEq, Repr

/-- True when a `PyErr` is a configuration-error wrapper around an
underlying SDK exception (the only such wrapper the source raises is
`ConnectionError` in `GeminiProvider.configure`). -/
def PyErr.isConfigWrapper : PyErr → Bool
  | .connectionError _ => true
  | _ => false

/-- Python truthiness test `not api_key` on an optional string: true for
`None` and for the empty string. -/
def pyFalsy : Option String → Bool
  | none => true
  | some s => s = ""

/-! ### Data model of the adapter layer -/

/-- Which concrete adapter class an adapter instance belongs to. -/
inductive AdapterKind where
  | gemini
  | openaiCompatible
  | claude
  deriving DecidableEq, Repr

/-- The observable state of a constructed adapter instance: its class, the
stored credential, the base URL override (meaningful only for the
OpenAI-compatible class, `none` meaning the vendor default endpoint), and
whether `configure()` has established the vendor client. -/
structure Adapter where
  kind : AdapterKind
  api_key : String
  base_url : Option String
  configured : Bool
  deriving DecidableEq, Repr

/-- One entry of the Google model listing: a model name and its supported
generation methods, as returned by `genai.list_models()`. -/
structure GenaiModel where
  name : String
  supported_generation_methods : List String
  deriving DecidableEq, Repr

/-- Oracles for the vendor SDK calls performed during adapter
construction.  An `error e` outcome models the SDK raising an exception
with detail `e`. -/
structure VendorEnv where
  genaiConfigure : String → Except String Unit
  openaiClientInit : String → Option String → Except String Unit
  anthropicClientInit : String → Except String Unit

/-- A vendor environment in which every construction-time SDK call
succeeds. -/
def okEnv : VendorEnv :=
  ⟨fun _ => .ok (), fun _ _ => .ok (), fun _ => .ok ()⟩

/-! ### llm_integration.py: constants -/

/-- Embeds `SUPPORTED_PROVIDER_NAMES` (llm_integration.py line 8). -/
def SUPPORTED_PROVIDER_NAMES : List String :=
  ["Google", "OpenAI", "Anthropic (Claude)", "Grok"]

/-- Embeds `GROK_API_BASE_URL` (llm_integration.py line 9). -/
def GROK_API_BASE_URL : String := "https://api.x.ai/v1"

/-! ### llm_integration.py: base class -/

/-- Embeds `LLMProvider.__init__` (llm_integration.py lines 14 to 18): an
empty or absent key raises `ValueError`; otherwise the key is stored and
`configure()` runs as part of construction, its exception (if any)
propagating out of the constructor.  On success the stored key is
returned. -/
def LLMProvider.init (className : String) (api_key : Option String)
    (configure : String → Except PyErr Unit) : Except PyErr String :=
  match api_key with
  | none => .error (.valueError ("API key for " ++ className ++ " is required."))
  | some k =>
      if k = "" then
        .error (.valueError ("API key for " ++ className ++ " is required."))
      else
        match configure k with
        | .ok _ => .ok k
        | .error e => .error e

/-! ### llm_integration.py: GeminiProvider -/

/-- Embeds `GeminiProvider.configure` (lines 37 to 41): any exception from
`genai.configure` is wrapped in `ConnectionError`. -/
def GeminiProvider.configure (genaiConfigure : String → Except String Unit)
    (api_key : String) : Except PyErr Unit :=
  match genaiConfigure api_key with
  | .ok _ => .ok ()
  | .error e => .error (.connectionError ("Failed to configure Gemini API: " ++ e))

/-- Embeds `GeminiProvider.get_models` (lines 43 to 49).  The first
component of the result is the sequence of messages printed to the
operator-facing channel, the second the returned model list. -/
def GeminiProvider.get_models (listModels : Except String (List GenaiModel)) :
    List String × List String :=
  match listModels with
  | .ok models =>
      let all_models := (models.filter
        (fun m => m.supported_generation_methods.contains "generateContent")).map
          GenaiModel.name
      ([], pySorted (all_models.map (fun m => pyReplace m "models/" "")))
  | .error e =>
      (["[bold red]Could not fetch Gemini model list: " ++ e ++ "[/bold red]"], [])

/-- Embeds `GeminiProvider.generate_review` (lines 51 to 61).
`generateContent` is the oracle for constructing `genai.GenerativeModel`
and calling `generate_content` on the full prompt. -/
def GeminiProvider.generate_review
    (generateContent : String → String → Except String String)
    (diff_content prompt model_name : String) (debug_mode : Bool) : String :=
  let full_prompt :=
    prompt ++ "\n\n---\n\n**Code Diff to Review:**\n\n```diff\n" ++ diff_content ++ "\n```"
  if debug_mode then
    "(Debug mode: AI call skipped)"
  else
    match generateContent model_name full_prompt with
    | .ok text => text
    | .error e => "(Error during API call: " ++ e ++ ")"

/-- Embeds the construction `GeminiProvider(api_key)`. -/
def GeminiProvider.init (env : VendorEnv) (api_key : Option String) :
    Except PyErr Adapter :=
  (LLMProvider.init "GeminiProvider" api_key (GeminiProvider.configure env.genaiConfigure)).map
    (fun k => ⟨.gemini, k, none, true⟩)

/-! ### llm_integration.py: OpenAIProvider -/

/-- Embeds `OpenAIProvider.configure` (lines 68 to 69): the client is
built with the stored key and base URL; an exception from the client
constructor propagates unchanged, with no wrapping. -/
def OpenAIProvider.configure (openaiClientInit : String → Option String → Except String Unit)
    (api_key : String) (base_url : Option String) : Except PyErr Unit :=
  match openaiClientInit api_key base_url with
  | .ok _ => .ok ()
  | .error e => .error (.raw e)

/-- Embeds `OpenAIProvider.get_models` (lines 71 to 78); the oracle value
is the list of model ids of the `models.list()` page.  First component:
printed messages; second: the returned model list. -/
def OpenAIProvider.get_models (modelList : Except String (List String)) :
    List String × List String :=
  match modelList with
  | .ok models => ([], pySorted models)
  | .error e =>
      (["[bold red]Could not fetch OpenAI/Grok model list: " ++ e ++ "[/bold red]"], [])

/-- The user message both the OpenAI-compatible and the Anthropic adapter
compose around the diff (llm_integration.py lines 89 and 112). -/
def userDiffMessage (diff_content : String) : String :=
  "Please review the following code diff:\n```diff\n" ++ diff_content ++ "\n```"

/-- Embeds `OpenAIProvider.generate_review` (lines 80 to 94).
`chatCreate` is the oracle for `client.chat.completions.create`, taking
the model name and the role-tagged messages. -/
def OpenAIProvider.generate_review
    (chatCreate : String → List (String × String) → Except String String)
    (diff_content prompt model_name : String) (debug_mode : Bool) : String :=
  if debug_mode then
    "(Debug mode: AI call skipped)"
  else
    match chatCreate model_name
        [("system", prompt), ("user", userDiffMessage diff_content)] with
    | .ok content => content
    | .error e => "(Error during API call: " ++ e ++ ")"

/-- Embeds the construction `OpenAIProvider(api_key, base_url)`; the base
URL is stored before the base constructor runs, so `configure()` sees
it. -/
def OpenAIProvider.init (env : VendorEnv) (api_key : Option String)
    (base_url : Option String) : Except PyErr Adapter :=
  (LLMProvider.init "OpenAIProvider" api_key
      (fun k => OpenAIProvider.configure env.openaiClientInit k base_url)).map
    (fun k => ⟨.openaiCompatible, k, base_url, true⟩)

/-! ### llm_integration.py: ClaudeProvider -/

/-- Embeds `ClaudeProvider.configure` (lines 97 to 98): the client is
built with the stored key; an exception propagates unchanged. -/
def ClaudeProvider.configure (anthropicClientInit : String → Except String Unit)
    (api_key : String) : Except PyErr Unit :=
  match anthropicClientInit api_key with
  | .ok _ => .ok ()
  | .error e => .error (.raw e)

/-- Embeds `ClaudeProvider.get_models` (lines 100 to 101): a hardcoded
list, sorted; the adapter state is ignored. -/
def ClaudeProvider.get_models (self : Adapter) : List String :=
  pySorted ["claude-3-opus-20240229", "claude-3-sonnet-20240229", "claude-3-haiku-20240307"]

/-- Embeds `ClaudeProvider.generate_review` (lines 103 to 116).
`messagesCreate` is the oracle for `client.messages.create`, taking the
model name, the max-token cap, the system prompt and the role-tagged
messages. -/
def ClaudeProvider.generate_review
    (messagesCreate : String → Nat → String → List (String × String) → Except String String)
    (diff_content prompt model_name : String) (debug_mode : Bool) : String :=
  if debug_mode then
    "(Debug mode: AI call skipped)"
  else
    match messagesCreate model_name 4096 prompt
        [("user", userDiffMessage diff_content)] with
    | .ok text => text
    | .error e => "(Error during API call: " ++ e ++ ")"

/-- Embeds the construction `ClaudeProvider(api_key)`. -/
def ClaudeProvider.init (env : VendorEnv) (api_key : Option String) :
    Except PyErr Adapter :=
  (LLMProvider.init "ClaudeProvider" api_key
      (ClaudeProvider.configure env.anthropicClientInit)).map
    (fun k => ⟨.claude, k, none, true⟩)

/-! ### llm_integration.py: factory -/

/-- Embeds `get_provider_from_name` (lines 119 to 130). -/
def get_provider_from_name (env : VendorEnv) (provider_name : String)
    (api_key : Option String) : Except PyErr Adapter :=
  if provider_name = "Google" then
    GeminiProvider.init env api_key
  else if provider_name = "OpenAI" then
    OpenAIProvider.init env api_key none
  else if provider_name = "Anthropic (Claude)" then
    ClaudeProvider.init env api_key
  else if provider_name = "Grok" then
    OpenAIProvider.init env api_key (some GROK_API_BASE_URL)
  else
    .error (.valueError ("Unsupported provider: " ++ provider_name))

/-! ### cli.py fragments -/

/-- Embeds the model-ordering block of `setup_configuration`
(cli.py lines 83 to 87): pro matches sorted, then flash matches sorted,
then the rest sorted, concatenated in that order. -/
def setup_configuration_sorted_models (all_models : List String) : List String :=
  pySorted (all_models.filter (fun m => strContains m "pro"))
    ++ pySorted (all_models.filter (fun m => strContains m "flash"))
    ++ pySorted (all_models.filter
        (fun m => !(strContains m "pro") && !(strContains m "flash")))

/-- The module-level names bound in `llm_integration.py`: the three SDK
imports, the two names from `abc`, `print` from `rich`, the two
constants, the four classes and the one function. -/
def llm_integration_module_attrs : List String :=
  ["genai", "openai", "anthropic", "ABC", "abstractmethod", "print",
   "SUPPORTED_PROVIDER_NAMES", "GROK_API_BASE_URL",
   "LLMProvider", "GeminiProvider", "OpenAIProvider", "ClaudeProvider",
   "get_provider_from_name"]

/-- The module-level functions defined in `llm_integration.py`: only the
factory. -/
def llm_integration_module_functions : List String :=
  ["get_provider_from_name"]

/-- A call site in `cli.py` of the form
`llm_integration.<target>(...)`: the line number and the attribute name
looked up on the module. -/
structure CliReviewCall where
  line : Nat
  target : String
  deriving DecidableEq, Repr

/-- The three review-generation call sites in `main` (cli.py): the
cumulative-diff review (line 298), the individual-commit review
(line 320) and the folder-content review (line 430). -/
def cli_review_generation_calls : List CliReviewCall :=
  [⟨298, "get_code_review"⟩, ⟨320, "get_code_review"⟩, ⟨430, "get_code_review"⟩]

/-- Python attribute lookup on a module: the first binding with the
requested name, `none` modelling an `AttributeError`. -/
def moduleAttrLookup (attrs : List String) (name : String) : Option String :=
  attrs.find? (fun a => a = name)

/-! ### Claims -/

/-- C1: for every adapter, every content, prompt and model name, with
debug mode off, `generate_review` never raises: when the vendor call
raises an exception with detail `e`, the exception is caught and the
formatted string embedding `e` is returned, so the caller always receives
a string (the embedded functions are total into `String`). -/
theorem generate_review_catches_api_errors
    (generateContent : String → String → Except String String)
    (chatCreate : String → List (String × String) → Except String String)
    (messagesCreate : String → Nat → String → List (String × String) → Except String String)
    (diff_content prompt model_name e : String)
    (hg : generateContent model_name
        (prompt ++ "\n\n---\n\n**Code Diff to Review:**\n\n```diff\n"
          ++ diff_content ++ "\n```") = .error e)
    (ho : chatCreate model_name
        [("system", prompt), ("user", userDiffMessage diff_content)] = .error e)
    (hc : messagesCreate model_name 4096 prompt
        [("user", userDiffMessage diff_content)] = .error e) :
    GeminiProvider.generate_review generateContent diff_content prompt model_name false
        = "(Error during API call: " ++ e ++ ")"
      ∧ OpenAIProvider.generate_review chatCreate diff_content prompt model_name false
        = "(Error during API call: " ++ e ++ ")"
      ∧ ClaudeProvider.generate_review messagesCreate diff_content prompt model_name false
        = "(Error during API call: " ++ e ++ ")" := by
  refine ⟨?_, ?_, ?_⟩
  · simp [GeminiProvider.generate_review, hg]
  · simp [OpenAIProvider.generate_review, ho]
  · simp [ClaudeProvider.generate_review, hc]

/-- Witness for C1 at a concrete failing vendor call. -/
theorem generate_review_catches_api_errors_witness :
    GeminiProvider.generate_review (fun _ _ => .error "boom") "diff" "prompt" "model" false
        = "(Error during API call: " ++ "boom" ++ ")"
      ∧ OpenAIProvider.generate_review (fun _ _ => .error "boom") "diff" "prompt" "model" false
        = "(Error during API call: " ++ "boom" ++ ")"
      ∧ ClaudeProvider.generate_review (fun _ _ _ _ => .error "boom") "diff" "prompt" "model" false
        = "(Error during API call: " ++ "boom" ++ ")" :=
  generate_review_catches_api_errors (fun _ _ => .error "boom") (fun _ _ => .error "boom")
    (fun _ _ _ _ => .error "boom") "diff" "prompt" "model" "boom" rfl rfl rfl

/-- C2: for every adapter, `get_models` never raises: when the vendor
model-list query fails with detail `e`, the Google and OpenAI-compatible
adapters print the problem to the operator-facing channel and return the
empty list, and the Anthropic adapter, which performs no vendor query at
all, returns its fixed list for every adapter state. -/
theorem get_models_never_raises (e : String) (self : Adapter) :
    GeminiProvider.get_models (.error e)
        = (["[bold red]Could not fetch Gemini model list: " ++ e ++ "[/bold red]"], [])
      ∧ OpenAIProvider.get_models (.error e)
        = (["[bold red]Could not fetch OpenAI/Grok model list: " ++ e ++ "[/bold red]"], [])
      ∧ ClaudeProvider.get_models self
        = ["claude-3-haiku-20240307", "claude-3-opus-20240229", "claude-3-sonnet-20240229"] := by
  refine ⟨rfl, rfl, ?_⟩
  show pySorted ["claude-3-opus-20240229", "claude-3-sonnet-20240229", "claude-3-haiku-20240307"]
      = _
  decide

/-- C3: all three review-generation call sites in the CLI orchestrator
look up `get_code_review` on the `llm_integration` module; the module
binds no attribute of that name (its only module-level function is
`get_provider_from_name`), so each lookup fails with an attribute-lookup
error. -/
theorem get_code_review_calls_unresolvable :
    cli_review_generation_calls.length = 3
      ∧ (∀ c ∈ cli_review_generation_calls,
          c.target = "get_code_review"
            ∧ moduleAttrLookup llm_integration_module_attrs c.target = none)
      ∧ llm_integration_module_functions = ["get_provider_from_name"] := by
  decide

/-- C4, counterexample: on a generation-capable model set holding one
flash name and one pro name, the Google adapter returns the plain
lexicographic sort, which places the flash match before the pro match —
not the grouped order the claim states. -/
theorem gemini_get_models_not_grouped :
    (GeminiProvider.get_models (.ok
        [⟨"models/flash-a", ["generateContent"]⟩, ⟨"models/pro-b", ["generateContent"]⟩])).2
        = ["flash-a", "pro-b"]
      ∧ strContains "pro-b" "pro" = true
      ∧ strContains "flash-a" "flash" = true
      ∧ strContains "flash-a" "pro" = false
      ∧ strContains "pro-b" "flash" = false
      ∧ setup_configuration_sorted_models ["flash-a", "pro-b"] = ["pro-b", "flash-a"]
      ∧ (GeminiProvider.get_models (.ok
          [⟨"models/flash-a", ["generateContent"]⟩, ⟨"models/pro-b", ["generateContent"]⟩])).2
        ≠ setup_configuration_sorted_models ["flash-a", "pro-b"] := by
  decide

/-- C4, amended: the grouped ordering — all pro matches lexicographically
sorted, then all flash matches sorted, then the rest sorted — is produced
by the model-selection block of the CLI `setup_configuration`, not by the
Google adapter `get_models`. -/
theorem setup_configuration_groups_pro_flash_other (all_models : List String) :
    ∃ pro_models flash_models other_models,
      setup_configuration_sorted_models all_models
          = pro_models ++ flash_models ++ other_models
        ∧ List.Sorted pyLe pro_models
        ∧ List.Sorted pyLe flash_models
        ∧ List.Sorted pyLe other_models
        ∧ (∀ m, m ∈ pro_models ↔ m ∈ all_models ∧ strContains m "pro" = true)
        ∧ (∀ m, m ∈ flash_models ↔ m ∈ all_models ∧ strContains m "flash" = true)
        ∧ (∀ m, m ∈ other_models ↔ m ∈ all_models
            ∧ strContains m "pro" = false ∧ strContains m "flash" = false) := by
  refine ⟨pySorted (all_models.filter (fun m => strContains m "pro")),
      pySorted (all_models.filter (fun m => strContains m "flash")),
      pySorted (all_models.filter
        (fun m => !(strContains m "pro") && !(strContains m "flash"))),
      rfl, pySorted_sorted _, pySorted_sorted _, pySorted_sorted _, ?_, ?_, ?_⟩
  · intro m
    rw [mem_pySorted, List.mem_filter]
  · intro m
    rw [mem_pySorted, List.mem_filter]
  · intro m
    rw [mem_pySorted, List.mem_filter]
    simp [Bool.and_eq_true, Bool.not_eq_true', and_assoc]

/-- C5, counterexample: the factory does not recognise the literal name
"Anthropic"; the Anthropic adapter is selected by the name
"Anthropic (Claude)", so with a valid key the claimed identity set is
wrong on its third element. -/
theorem factory_anthropic_name_counterexample :
    get_provider_from_name okEnv "Anthropic" (some "sk-test")
        = .error (.valueError "Unsupported provider: Anthropic")
      ∧ "Anthropic" ∉ SUPPORTED_PROVIDER_NAMES
      ∧ get_provider_from_name okEnv "Anthropic (Claude)" (some "sk-test")
        = .ok ⟨.claude, "sk-test", none, true⟩ := by
  refine ⟨rfl, by decide, rfl⟩

/-- C5, amended: for every name in the closed set
`SUPPORTED_PROVIDER_NAMES = ["Google", "OpenAI", "Anthropic (Claude)",
"Grok"]` paired with a non-empty credential whose construction-time
vendor calls succeed, the factory returns the matching adapter with
`configure` already performed; for any name outside that set it fails
with the identity-not-recognized `ValueError`. -/
theorem factory_constructs_configured_adapters (env : VendorEnv) (k : String)
    (hk : ¬ k = "")
    (hgen : env.genaiConfigure k = .ok ())
    (hopenai : ∀ b, env.openaiClientInit k b = .ok ())
    (hanthropic : env.anthropicClientInit k = .ok ()) :
    get_provider_from_name env "Google" (some k) = .ok ⟨.gemini, k, none, true⟩
      ∧ get_provider_from_name env "OpenAI" (some k) = .ok ⟨.openaiCompatible, k, none, true⟩
      ∧ get_provider_from_name env "Anthropic (Claude)" (some k)
        = .ok ⟨.claude, k, none, true⟩
      ∧ get_provider_from_name env "Grok" (some k)
        = .ok ⟨.openaiCompatible, k, some GROK_API_BASE_URL, true⟩
      ∧ (∀ name, name ∉ SUPPORTED_PROVIDER_NAMES →
          get_provider_from_name env name (some k)
            = .error (.valueError ("Unsupported provider: " ++ name))) := by
  refine ⟨?_, ?_, ?_, ?_, ?_⟩
  · simp [get_provider_from_name, GeminiProvider.init, LLMProvider.init,
      GeminiProvider.configure, Except.map, hk, hgen]
  · simp [get_provider_from_name, OpenAIProvider.init, LLMProvider.init,
      OpenAIProvider.configure, Except.map, hk, hopenai]
  · simp [get_provider_from_name, ClaudeProvider.init, LLMProvider.init,
      ClaudeProvider.configure, Except.map, hk, hanthropic]
  · simp [get_provider_from_name, OpenAIProvider.init, LLMProvider.init,
      OpenAIProvider.configure, Except.map, hk, hopenai]
  · intro name hname
    simp only [SUPPORTED_PROVIDER_NAMES, List.mem_cons, List.not_mem_nil, or_false,
      not_or] at hname
    obtain ⟨h1, h2, h3, h4⟩ := hname
    simp [get_provider_from_name, h1, h2, h3, h4]

/-- Witness for C5 at the all-succeeding vendor environment. -/
theorem factory_constructs_configured_adapters_witness :
    get_provider_from_name okEnv "Grok" (some "sk-live")
        = .ok ⟨.openaiCompatible, "sk-live", some GROK_API_BASE_URL, true⟩
      ∧ get_provider_from_name okEnv "Mistral" (some "sk-live")
        = .error (.valueError ("Unsupported provider: " ++ "Mistral")) :=
  ⟨(factory_constructs_configured_adapters okEnv "sk-live" (by decide) rfl
      (fun _ => rfl) rfl).2.2.2.1,
   (factory_constructs_configured_adapters okEnv "sk-live" (by decide) rfl
      (fun _ => rfl) rfl).2.2.2.2 "Mistral" (by decide)⟩

/-- C6, counterexample: when the underlying client construction raises,
the OpenAI-compatible and Anthropic adapters propagate the underlying
exception unchanged — no configuration-error wrapper — so the claim that
every adapter wraps fails on both. -/
theorem configure_wrapping_counterexample :
    OpenAIProvider.configure (fun _ _ => .error "Invalid API key") "sk-bad" none
        = .error (.raw "Invalid API key")
      ∧ ClaudeProvider.configure (fun _ => .error "Invalid API key") "sk-bad"
        = .error (.raw "Invalid API key")
      ∧ (PyErr.raw "Invalid API key").isConfigWrapper = false := by
  refine ⟨rfl, rfl, rfl⟩

/-- C6, amended: only the Google adapter `configure` wraps the underlying
exception, raising a `ConnectionError` embedding the detail; the
OpenAI-compatible and Anthropic adapters propagate the underlying
client-construction exception unchanged. -/
theorem configure_error_behaviour (e k : String) (b : Option String) :
    GeminiProvider.configure (fun _ => .error e) k
        = .error (.connectionError ("Failed to configure Gemini API: " ++ e))
      ∧ (PyErr.connectionError ("Failed to configure Gemini API: " ++ e)).isConfigWrapper
        = true
      ∧ OpenAIProvider.configure (fun _ _ => .error e) k b = .error (.raw e)
      ∧ ClaudeProvider.configure (fun _ => .error e) k = .error (.raw e) := by
  refine ⟨rfl, rfl, rfl, rfl⟩

/-- C7: for every adapter and all inputs, including empty strings,
`generate_review` in debug mode returns the fixed sentinel and its
result does not depend on the vendor-call oracle (no network call) nor
on the content or prompt. -/
theorem debug_mode_skips_network_and_is_constant
    (g g2 : String → String → Except String String)
    (ch ch2 : String → List (String × String) → Except String String)
    (mc mc2 : String → Nat → String → List (String × String) → Except String String)
    (c c2 p p2 m : String) :
    GeminiProvider.generate_review g c p m true = "(Debug mode: AI call skipped)"
      ∧ GeminiProvider.generate_review g c p m true
        = GeminiProvider.generate_review g2 c2 p2 m true
      ∧ OpenAIProvider.generate_review ch c p m true = "(Debug mode: AI call skipped)"
      ∧ OpenAIProvider.generate_review ch c p m true
        = OpenAIProvider.generate_review ch2 c2 p2 m true
      ∧ ClaudeProvider.generate_review mc c p m true = "(Debug mode: AI call skipped)"
      ∧ ClaudeProvider.generate_review mc c p m true
        = ClaudeProvider.generate_review mc2 c2 p2 m true :=
  ⟨rfl, rfl, rfl, rfl, rfl, rfl⟩

/-- C8: with a valid key, the factory under the name "OpenAI" builds an
OpenAI-compatible adapter with no base-URL override (the vendor default
endpoint), and under the name "Grok" an adapter of the same
implementation kind whose endpoint is the alternate base URL constant. -/
theorem factory_openai_grok_endpoints (env : VendorEnv) (k : String)
    (hk : ¬ k = "")
    (hopenai : ∀ b, env.openaiClientInit k b = .ok ()) :
    get_provider_from_name env "OpenAI" (some k) = .ok ⟨.openaiCompatible, k, none, true⟩
      ∧ get_provider_from_name env "Grok" (some k)
        = .ok ⟨.openaiCompatible, k, some GROK_API_BASE_URL, true⟩
      ∧ GROK_API_BASE_URL = "https://api.x.ai/v1" := by
  refine ⟨?_, ?_, rfl⟩
  · simp [get_provider_from_name, OpenAIProvider.init, LLMProvider.init,
      OpenAIProvider.configure, Except.map, hk, hopenai]
  · simp [get_provider_from_name, OpenAIProvider.init, LLMProvider.init,
      OpenAIProvider.configure, Except.map, hk, hopenai]

/-- Witness for C8 at the all-succeeding vendor environment. -/
theorem factory_openai_grok_endpoints_witness :
    get_provider_from_name okEnv "OpenAI" (some "sk-xai")
        = .ok ⟨.openaiCompatible, "sk-xai", none, true⟩
      ∧ get_provider_from_name okEnv "Grok" (some "sk-xai")
        = .ok ⟨.openaiCompatible, "sk-xai", some GROK_API_BASE_URL, true⟩ :=
  ⟨(factory_openai_grok_endpoints okEnv "sk-xai" (by decide) (fun _ => rfl)).1,
   (factory_openai_grok_endpoints okEnv "sk-xai" (by decide) (fun _ => rfl)).2.1⟩

/-- C9: with unchanged vendor state every adapter returns the same
ordered model sequence on two successive `get_models` calls (the embedded
functions are deterministic in the vendor state), and the Anthropic
adapter returns the same fixed, lexicographically sorted list for every
adapter state, independent of credential and network. -/
theorem get_models_idempotent_and_claude_fixed :
    (∀ r : Except String (List GenaiModel),
        GeminiProvider.get_models r = GeminiProvider.get_models r)
      ∧ (∀ r : Except String (List String),
          OpenAIProvider.get_models r = OpenAIProvider.get_models r)
      ∧ (∀ a1 a2 : Adapter, ClaudeProvider.get_models a1 = ClaudeProvider.get_models a2)
      ∧ (∀ a : Adapter, ClaudeProvider.get_models a
          = ["claude-3-haiku-20240307", "claude-3-opus-20240229", "claude-3-sonnet-20240229"])
      ∧ (∀ a : Adapter, List.Sorted pyLe (ClaudeProvider.get_models a)) := by
  refine ⟨fun _ => rfl, fun _ => rfl, fun _ _ => rfl, fun a => ?_, fun a => pySorted_sorted _⟩
  show pySorted ["claude-3-opus-20240229", "claude-3-sonnet-20240229", "claude-3-haiku-20240307"]
      = _
  decide

/-- C10: constructing any adapter class from an empty or absent API key
raises the `ValueError` of the base constructor, and the result does not
depend on the vendor environment — `configure()` is never reached, so no
vendor client is established from an empty credential. -/
theorem empty_api_key_rejected (k : Option String) (h : pyFalsy k = true) :
    (∀ env : VendorEnv, GeminiProvider.init env k
        = .error (.valueError "API key for GeminiProvider is required."))
      ∧ (∀ (env : VendorEnv) (b : Option String), OpenAIProvider.init env k b
          = .error (.valueError "API key for OpenAIProvider is required."))
      ∧ (∀ env : VendorEnv, ClaudeProvider.init env k
          = .error (.valueError "API key for ClaudeProvider is required."))
      ∧ (∀ env1 env2 : VendorEnv, GeminiProvider.init env1 k = GeminiProvider.init env2 k)
      ∧ (∀ (env1 env2 : VendorEnv) (b : Option String),
          OpenAIProvider.init env1 k b = OpenAIProvider.init env2 k b)
      ∧ (∀ env1 env2 : VendorEnv, ClaudeProvider.init env1 k = ClaudeProvider.init env2 k) := by
  match k with
  | none =>
      exact ⟨fun _ => rfl, fun _ _ => rfl, fun _ => rfl,
        fun _ _ => rfl, fun _ _ _ => rfl, fun _ _ => rfl⟩
  | some s =>
      have hs : s = "" := by
        simpa [pyFalsy] using h
      subst hs
      exact ⟨fun _ => rfl, fun _ _ => rfl, fun _ => rfl,
        fun _ _ => rfl, fun _ _ _ => rfl, fun _ _ => rfl⟩

/-- Witness for C10 at the empty-string credential. -/
theorem empty_api_key_rejected_witness :
    pyFalsy (some "") = true
      ∧ GeminiProvider.init okEnv (some "")
        = .error (.valueError "API key for GeminiProvider is required.") :=
  ⟨rfl, (empty_api_key_rejected (some "") rfl).1 okEnv⟩

end AICodeReview
